import Mathlib

/-
Verification of the calibration-and-correction pipeline of the
opencv-undistort tool (src/src/main.rs) against its specification.

The embedding models the glue logic of main.rs directly: the object-point
grid, the termination criteria, the directory filter, the per-image
accumulation loop of the calibrate subcommand, the record that is persisted,
its JSON encoding and decoding, and the per-image processing of the correct
subcommand.  External OpenCV routines (image decoding, chessboard corner
detection, sub-pixel refinement, the calibration solver, the rectifier and
the undistorter) are collaborators whose results are supplied by an
environment record; the theorems quantify over that environment, adding as
hypotheses only the collaborator contracts stated in the specification.
-/

namespace UndistortSpec

/-! ### Grid specification (main.rs lines 72-79) -/

/-- Number of interior corners along the width, from main.rs line 73. -/
def width_dim : Nat := 11

/-- Number of interior corners along the height, from main.rs line 74. -/
def height_dim : Nat := 8

/-- Length of the object-point sequence, from main.rs line 75. -/
def objp_len : Nat := width_dim * height_dim

/-- An object-space point.  The source stores Point3f, but every coordinate
built at line 78 is a small nonnegative integer cast exactly to f32, so the
embedding uses natural numbers. -/
abbrev Point3 := Nat × Nat × Nat

/-- The canonical object-point sequence, from main.rs lines 76-79: index i is
mapped to the point (i mod width_dim, i div height_dim, 0), where the
divisions are integer divisions on nonnegative values. -/
def objp : List Point3 :=
  (List.range objp_len).map fun i => (i % width_dim, i / height_dim, 0)

/-! ### Termination criteria (main.rs lines 65-70) -/

/-- Flag value of the epsilon criterion in the external library. -/
def TermCriteria_EPS : Int := 2

/-- Flag value of the iteration-count criterion in the external library. -/
def TermCriteria_MAX_ITER : Int := 1

/-- The termination-criteria record of the source, main.rs lines 66-70. -/
structure TermCriteria where
  typ : Int
  max_count : Int
  epsilon : Rat
deriving DecidableEq

/-- The criteria value built once at main.rs lines 66-70.  The literal 0.001
of the source is carried as the exact rational 1/1000. -/
def criteria : TermCriteria :=
  { typ := TermCriteria_EPS + TermCriteria_MAX_ITER
    max_count := 30
    epsilon := 1 / 1000 }

/-! ### Points, buffers and matrices -/

/-- An image-plane point; the coordinates of Point2f are carried as exact
rationals since the glue code never computes with them. -/
abbrev Point2 := Rat × Rat

/-- An abstract pixel buffer: the glue code only moves buffers around. -/
abbrev Buffer := List Rat

/-- A two-dimensional matrix as returned by to_vec_2d, rows outermost. -/
abbrev Mat2 := List (List Rat)

/-- Row-major flattening of a matrix, from main.rs lines 171-177 and 178-184:
iter over the rows, flat_map each row, collect. -/
def flattenMat (m : Mat2) : List Rat :=
  m.foldr (fun row acc => row ++ acc) []

/-! ### Directory listing and the jpg filter (main.rs lines 86-89, 204-206) -/

/-- The suffix of the list after the last occurrence of a character, or none
when the character does not occur. -/
def suffixAfterLast (c : Char) : List Char → Option (List Char)
  | [] => none
  | a :: as =>
    match suffixAfterLast c as with
    | some r => some r
    | none => if a = c then some as else none

/-- The final path component: everything after the last slash. -/
def fileNameChars (p : List Char) : List Char :=
  match suffixAfterLast '/' p with
  | some r => r
  | none => p

/-- The extension of a path, following the semantics of Path extension in the
Rust standard library: taken on the final component, it is the part after the
last dot, except that a leading dot of the component does not count as a
separator; none when no separating dot exists. -/
def extensionOf (p : String) : Option String :=
  match fileNameChars p.toList with
  | [] => none
  | c :: rest =>
    if c = '.' then (suffixAfterLast '.' rest).map fun l => String.mk l
    else (suffixAfterLast '.' (c :: rest)).map fun l => String.mk l

/-- The final component of a path as a string, modelling file_name. -/
def fileNameOf (p : String) : String :=
  String.mk (fileNameChars p.toList)

/-- One result of read_dir: either a readable entry with its path, or an
errored entry.  The source applies flatten to the iterator of results, which
drops errored entries silently. -/
inductive DirEntry where
  | ok (path : String)
  | err
deriving DecidableEq

/-- The path of a readable entry. -/
def DirEntry.pathOf : DirEntry → Option String
  | DirEntry.ok p => some p
  | DirEntry.err => none

/-- The directory-scan pipeline shared by both subcommands, main.rs lines
86-89 and 204-206: flatten the read_dir results, keep exactly the entries
whose path extension compares equal to jpg. -/
def filteredPaths (entries : List DirEntry) : List String :=
  (entries.filterMap DirEntry.pathOf).filter fun p =>
    decide (extensionOf p = some "jpg")

/-! ### Calibration record and its JSON form (main.rs lines 50-54, 186-191,
200-203) -/

/-- The persisted record, main.rs lines 50-54.  The f64 components are
carried as exact rationals: the glue code never computes with them, and the
serde_json number encoding round-trips every f64 value exactly. -/
structure Calibration where
  camera_matrix : List Rat
  dist_coeffs : List Rat
deriving DecidableEq

/-- JSON values, restricted to the shapes the record uses. -/
inductive Json where
  | num (q : Rat)
  | arr (items : List Json)
  | obj (fields : List (String × Json))

/-- Serialization of the record as produced by the derived Serialize
instance at main.rs line 50 and serde_json at line 189: an object whose
fields appear in declaration order, camera_matrix first. -/
def encodeCalibration (c : Calibration) : Json :=
  Json.obj
    [("camera_matrix", Json.arr (c.camera_matrix.map Json.num)),
     ("dist_coeffs", Json.arr (c.dist_coeffs.map Json.num))]

/-- Field lookup by name, first match wins. -/
def lookupField (name : String) : List (String × Json) → Option Json
  | [] => none
  | (k, v) :: rest => if k = name then some v else lookupField name rest

/-- Reads a list of JSON numbers; fails on any non-number element. -/
def numsOf : List Json → Option (List Rat)
  | [] => some []
  | Json.num q :: rest =>
    match numsOf rest with
    | some qs => some (q :: qs)
    | none => none
  | _ => none

/-- Deserialization of the record as performed by the derived Deserialize
instance via serde_json at main.rs lines 200-201: both fields are located by
name and must hold arrays of numbers. -/
def decodeCalibration (j : Json) : Option Calibration :=
  match j with
  | Json.obj fields =>
    match lookupField "camera_matrix" fields, lookupField "dist_coeffs" fields with
    | some (Json.arr cs), some (Json.arr ds) =>
      match numsOf cs, numsOf ds with
      | some cv, some dv => some { camera_matrix := cv, dist_coeffs := dv }
      | _, _ => none
    | _, _ => none
  | _ => none

/-- The ordered field names of a JSON object. -/
def jsonFieldNames : Json → List String
  | Json.obj fields => fields.map Prod.fst
  | _ => []

/-! ### The calibrate pipeline (main.rs lines 60-194)

The OpenCV collaborators are supplied by an environment: for every image
path, whether decoding plus grayscale conversion succeeds, whether the
chessboard pattern is found, and which (already sub-pixel-refined) corner
sequence the detector delivers; and the behaviour of the calibration solver
and of the rectifier.  The glue logic itself is embedded from the source. -/

/-- The collaborator results for one image of the calibration directory. -/
structure ImageInfo where
  decode_ok : Bool
  found : Bool
  corners : List Point2
deriving DecidableEq

/-- The external collaborators of the calibrate subcommand.  The entries
field is the (deterministic) read_dir listing; solve models
calibrate_camera_def returning the intrinsic matrix and the distortion
coefficients or an error; optimal models get_optimal_new_camera_matrix,
a pure function per spec section 4.4; size gives the pixel dimensions of a
decoded image. -/
structure CalibEnv where
  entries : List DirEntry
  info : String → ImageInfo
  solve : List (List Point3) → List (List Point2) → Int × Int →
    Except String (Mat2 × Mat2)
  optimal : Mat2 → Mat2 → Int × Int → Mat2
  size : String → Int × Int

/-- Outcome of a run fragment: a panic from an unwrap on a failure value, an
error propagated to main by the question-mark operator, or a result. -/
inductive RunOutcome (α : Type) where
  | panic (msg : String)
  | err (msg : String)
  | ok (val : α)
deriving DecidableEq

/-- Whether the outcome is a result. -/
def RunOutcome.isOkB {α : Type} : RunOutcome α → Bool
  | RunOutcome.ok _ => true
  | _ => false

/-- Observable operations of the per-image loop, used to state which
arguments the corner refiner receives and what is reported. -/
inductive Event where
  | subPix (window : Int × Int) (zeroZone : Int × Int) (crit : TermCriteria)
  | notFound (image : String)
  | pushPair (image : String)
deriving DecidableEq

/-- The termination criteria carried by an event, when it carries any. -/
def Event.criteriaOf : Event → Option TermCriteria
  | Event.subPix _ _ c => some c
  | _ => none

/-- The mutable state of the accumulation loop: the two point sequences of
main.rs lines 81-82 plus the event trace. -/
structure AccState where
  objpoints : List (List Point3)
  imgpoints : List (List Point2)
  trace : List Event
deriving DecidableEq

/-- The state before the loop: both sequences empty. -/
def initAcc : AccState := { objpoints := [], imgpoints := [], trace := [] }

/-- The loop body of main.rs lines 90-125 for one image.  A failing decode or
grayscale conversion hits an unwrap and panics; a found pattern triggers
corner_sub_pix with window (11,11), zero zone (-1,-1) and the criteria value,
then appends the pair; a missed pattern is only reported. -/
def stepImage (env : CalibEnv) (s : AccState) (image : String) :
    RunOutcome AccState :=
  let info := env.info image
  if info.decode_ok then
    if info.found then
      RunOutcome.ok
        { objpoints := s.objpoints ++ [objp]
          imgpoints := s.imgpoints ++ [info.corners]
          trace := s.trace ++
            [Event.subPix (11, 11) (-1, -1) criteria, Event.pushPair image] }
    else
      RunOutcome.ok { s with trace := s.trace ++ [Event.notFound image] }
  else
    RunOutcome.panic "called unwrap on an Err value"

/-- The for_each of main.rs line 90: process the images in order; a panic
aborts the whole run. -/
def processImages (env : CalibEnv) : List String → AccState →
    RunOutcome AccState
  | [], s => RunOutcome.ok s
  | p :: ps, s =>
    match stepImage env s p with
    | RunOutcome.ok s2 => processImages env ps s2
    | RunOutcome.panic m => RunOutcome.panic m
    | RunOutcome.err m => RunOutcome.err m

/-- The image paths whose processing appends a correspondence pair. -/
def foundFilter (env : CalibEnv) (qs : List String) : List String :=
  qs.filter fun p => (env.info p).decode_ok && (env.info p).found

/-- The event trace the loop produces on the given paths, provided no panic
interrupts it. -/
def traceOf (env : CalibEnv) : List String → List Event
  | [] => []
  | p :: ps =>
    (if (env.info p).decode_ok then
      if (env.info p).found then
        [Event.subPix (11, 11) (-1, -1) criteria, Event.pushPair p]
      else [Event.notFound p]
    else []) ++ traceOf env ps

/-- The result of a completed calibrate run: the record built at main.rs
lines 170-185, the JSON value written to the calibration file at lines
186-191, and the loop trace. -/
structure CalibOutcome where
  record : Calibration
  fileContents : Json
  trace : List Event

/-- The solve-and-persist stage, main.rs lines 140-191: calibrate_camera_def
propagates an error by the question-mark operator; on success the record is
built from the flattened rectifier output and the flattened distortion
coefficients and serialized to the calibration file. -/
def solveStage (env : CalibEnv) (s : AccState) (first : String) :
    RunOutcome CalibOutcome :=
  match env.solve s.objpoints s.imgpoints (env.size first) with
  | Except.error m => RunOutcome.err m
  | Except.ok (mtx, dist) =>
    RunOutcome.ok
      { record :=
          { camera_matrix := flattenMat (env.optimal mtx dist (env.size first))
            dist_coeffs := flattenMat dist }
        fileContents :=
          encodeCalibration
            { camera_matrix :=
                flattenMat (env.optimal mtx dist (env.size first))
              dist_coeffs := flattenMat dist }
        trace := s.trace }

/-- The stage after the loop, main.rs lines 128-135: the directory is listed
again and the first jpg path is taken with unwrap, which panics when the
filtered listing is empty. -/
def afterLoop (env : CalibEnv) (s : AccState) : RunOutcome CalibOutcome :=
  match (filteredPaths env.entries).head? with
  | none => RunOutcome.panic "called unwrap on a None value"
  | some first => solveStage env s first

/-- The calibrate subcommand, main.rs lines 61-194: filter the directory to
jpg entries, run the loop, then look up the first image and solve, rectify
and persist. -/
def calibrateRun (env : CalibEnv) : RunOutcome CalibOutcome :=
  match processImages env (filteredPaths env.entries) initAcc with
  | RunOutcome.panic m => RunOutcome.panic m
  | RunOutcome.err m => RunOutcome.err m
  | RunOutcome.ok s => afterLoop env s

/-! ### The correct pipeline (main.rs lines 195-241) -/

/-- Observable operations of the correct subcommand loop. -/
inductive CEvent where
  | undistortDirect (image : String)
  | remapUndistort (image : String)
  | writeFile (path : String)
deriving DecidableEq

/-- Whether the event is a remap-based undistortion.  The source contains a
remap strategy only inside the comment block at main.rs lines 221-239, so no
constructor of the pipeline below ever emits this event. -/
def CEvent.isRemap : CEvent → Bool
  | CEvent.remapUndistort _ => true
  | _ => false

/-- Whether the event is a direct undistortion. -/
def CEvent.isDirect : CEvent → Bool
  | CEvent.undistortDirect _ => true
  | _ => false

/-- The loop body of main.rs lines 207-240 for one image: one direct
undistortion via undistort_def, then one write of the destination image to
output_dir slash u_ followed by the source file name. -/
def correctStep (output_dir : String) (p : String) : List CEvent :=
  [CEvent.undistortDirect p,
   CEvent.writeFile (output_dir ++ "/u_" ++ fileNameOf p)]

/-- The correct loop over a list of image paths. -/
def correctRunPaths (output_dir : String) : List String → List CEvent
  | [] => []
  | p :: ps => correctStep output_dir p ++ correctRunPaths output_dir ps

/-- The correct subcommand over a directory listing: same jpg filter as the
calibrate path, then the per-image loop. -/
def correctRun (output_dir : String) (entries : List DirEntry) :
    List CEvent :=
  correctRunPaths output_dir (filteredPaths entries)

/-! ### Buffer-level frame model (main.rs lines 93-112 and 208-219)

In the source, cvt_color_def writes only its destination mat, while
find_chessboard_corners_def and corner_sub_pix borrow the grayscale source
immutably and write only the corner vector, and undistort_def borrows the
distorted source immutably and writes only the separate destination mat.
The embedding gives each collaborator the signature induced by those
borrows: source buffers are read-only inputs. -/

/-- Buffer-level collaborators with the argument and result shapes induced
by the borrow structure of the source. -/
structure VisionEnv where
  cvtColor : Buffer → Buffer
  findCorners : Buffer → Bool × List Point2
  subPixRefine : Buffer → List Point2 → List Point2
  undistortFn : Mat2 → Mat2 → Buffer → Buffer

/-- The mats of the per-image detection block, main.rs lines 93-112. -/
structure DetectMats where
  img : Buffer
  gray : Buffer
  corners : List Point2

/-- The detection block: convert to grayscale, find the corners and, when
found, refine them; the source buffers are carried through unchanged. -/
def detectBlock (env : VisionEnv) (imgBuf : Buffer) : DetectMats :=
  let gray := env.cvtColor imgBuf
  let pair := env.findCorners gray
  let corners := if pair.fst then env.subPixRefine gray pair.snd else pair.snd
  { img := imgBuf, gray := gray, corners := corners }

/-- The mats of the per-image undistortion block, main.rs lines 208-219. -/
structure UndistortMats where
  img : Buffer
  dst_undistort : Buffer

/-- The undistortion block: the corrected result goes to the separate
destination mat dst_undistort; the source buffer is carried through. -/
def undistortBlock (env : VisionEnv) (mtx dist : Mat2) (imgBuf : Buffer) :
    UndistortMats :=
  { img := imgBuf, dst_undistort := env.undistortFn mtx dist imgBuf }

/-! ### Concrete environments used by counterexamples and witnesses -/

/-- A calibration directory with no jpg entry at all: the scenario of a run
that accumulates zero correspondences. -/
def envC2 : CalibEnv :=
  { entries := []
    info := fun _ => { decode_ok := true, found := false, corners := [] }
    solve := fun _ _ _ => Except.error "unused"
    optimal := fun m _ _ => m
    size := fun _ => (640, 480) }

/-- A directory with no jpg entry, paired with a solver that refuses empty
input, for the amended empty-run property. -/
def envC2w : CalibEnv :=
  { entries := []
    info := fun _ => { decode_ok := true, found := false, corners := [] }
    solve := fun _ _ _ => Except.error "insufficient calibration data"
    optimal := fun m _ _ => m
    size := fun _ => (640, 480) }

/-- Two jpg entries where the first image fails to decode and the second
would be detected fine. -/
def envC5 : CalibEnv :=
  { entries := [DirEntry.ok "cal/a.jpg", DirEntry.ok "cal/b.jpg"]
    info := fun p =>
      if p = "cal/a.jpg" then { decode_ok := false, found := false, corners := [] }
      else { decode_ok := true, found := true, corners := [(0, 0)] }
    solve := fun _ _ _ => Except.error "unused"
    optimal := fun m _ _ => m
    size := fun _ => (640, 480) }

/-- One jpg entry that decodes but where the pattern is not found. -/
def envC5w : CalibEnv :=
  { entries := [DirEntry.ok "cal/n.jpg"]
    info := fun _ => { decode_ok := true, found := false, corners := [] }
    solve := fun _ _ _ => Except.error "unused"
    optimal := fun m _ _ => m
    size := fun _ => (640, 480) }

/-- The intrinsic matrix a concrete solver returns. -/
def mtxC4 : Mat2 := [[1, 0, 0], [0, 1, 0], [0, 0, 1]]

/-- The distortion row a concrete solver returns. -/
def distC4 : Mat2 := [[1, 2, 3, 4, 5]]

/-- The distinct optimal matrix a concrete rectifier returns. -/
def optC4 : Mat2 := [[2, 0, 0], [0, 2, 0], [0, 0, 2]]

/-- One detected jpg entry with a solver and a rectifier whose outputs
differ, to exercise the persisted-record shape. -/
def envC4 : CalibEnv :=
  { entries := [DirEntry.ok "cal/a.jpg"]
    info := fun _ => { decode_ok := true, found := true, corners := [(5, 7)] }
    solve := fun _ _ _ => Except.ok (mtxC4, distC4)
    optimal := fun _ _ _ => optC4
    size := fun _ => (640, 480) }

/-- The accumulator state after processing the single image of envC4. -/
def c4acc : AccState :=
  { objpoints := [objp]
    imgpoints := [[(5, 7)]]
    trace := [Event.subPix (11, 11) (-1, -1) criteria,
      Event.pushPair "cal/a.jpg"] }

/-- One detected jpg entry, for the criteria-usage witness. -/
def envC7 : CalibEnv :=
  { entries := [DirEntry.ok "cal/a.jpg"]
    info := fun _ => { decode_ok := true, found := true, corners := [(5, 7)] }
    solve := fun _ _ _ => Except.error "unused"
    optimal := fun m _ _ => m
    size := fun _ => (640, 480) }

/-- The accumulator state after processing the single image of envC7. -/
def c7acc : AccState := c4acc

/-- A corner sequence of the full grid length. -/
def c8corners : List Point2 :=
  (List.range objp_len).map fun i => ((i : Rat), 0)

/-- One detected jpg entry whose corner sequence has the grid length, for
the accumulator-invariant witness. -/
def envC8 : CalibEnv :=
  { entries := [DirEntry.ok "cal/a.jpg"]
    info := fun _ => { decode_ok := true, found := true, corners := c8corners }
    solve := fun _ _ _ => Except.error "unused"
    optimal := fun m _ _ => m
    size := fun _ => (640, 480) }

/-- The accumulator state after processing the single image of envC8. -/
def c8acc : AccState :=
  { objpoints := [objp]
    imgpoints := [c8corners]
    trace := [Event.subPix (11, 11) (-1, -1) criteria,
      Event.pushPair "cal/a.jpg"] }

end UndistortSpec

namespace UndistortSpec

/-! ### Helper lemmas -/

/-- Length of a row-major flattening with rows of uniform length. -/
theorem flattenMat_length (m : Mat2) (k : Nat)
    (h : ∀ r ∈ m, r.length = k) : (flattenMat m).length = m.length * k := by
  induction m with
  | nil => simp [flattenMat]
  | cons r rs ih =>
    have hr : r.length = k := h r (List.mem_cons_self r rs)
    have hrest : ∀ x ∈ rs, x.length = k := fun x hx =>
      h x (List.mem_cons_of_mem r hx)
    have ht : (flattenMat rs).length = rs.length * k := ih hrest
    simp only [flattenMat, List.foldr_cons, List.length_append] at ht ⊢
    rw [hr, ht, List.length_cons]
    ring

/-- A failing decode panics the step. -/
theorem stepImage_decode_false (env : CalibEnv) (s : AccState) (image : String)
    (hd : (env.info image).decode_ok = false) :
    stepImage env s image = RunOutcome.panic "called unwrap on an Err value" := by
  simp [stepImage, hd]

/-- A found pattern appends a pair and records the refinement call. -/
theorem stepImage_found (env : CalibEnv) (s : AccState) (image : String)
    (hd : (env.info image).decode_ok = true)
    (hf : (env.info image).found = true) :
    stepImage env s image = RunOutcome.ok
      { objpoints := s.objpoints ++ [objp]
        imgpoints := s.imgpoints ++ [(env.info image).corners]
        trace := s.trace ++
          [Event.subPix (11, 11) (-1, -1) criteria, Event.pushPair image] } := by
  simp [stepImage, hd, hf]

/-- A missed pattern only reports the image. -/
theorem stepImage_not_found (env : CalibEnv) (s : AccState) (image : String)
    (hd : (env.info image).decode_ok = true)
    (hf : (env.info image).found = false) :
    stepImage env s image = RunOutcome.ok
      { objpoints := s.objpoints
        imgpoints := s.imgpoints
        trace := s.trace ++ [Event.notFound image] } := by
  simp [stepImage, hd, hf]

/-- Characterization of a successfully completed accumulation loop: the two
sequences of the final state extend those of the initial state by one entry
per pattern-found image, and the trace extends accordingly. -/
theorem processImages_ok_eq (env : CalibEnv) (qs : List String) :
    ∀ s0 s1 : AccState, processImages env qs s0 = RunOutcome.ok s1 →
      s1.objpoints = s0.objpoints ++ (foundFilter env qs).map (fun _ => objp) ∧
      s1.imgpoints = s0.imgpoints ++
        (foundFilter env qs).map (fun p => (env.info p).corners) ∧
      s1.trace = s0.trace ++ traceOf env qs := by
  induction qs with
  | nil =>
    intro s0 s1 h
    simp only [processImages] at h
    cases h
    simp [foundFilter, traceOf]
  | cons p ps ih =>
    intro s0 s1 h
    rw [processImages] at h
    cases hd : (env.info p).decode_ok with
    | false =>
      rw [stepImage_decode_false env s0 p hd] at h
      simp at h
    | true =>
      cases hf : (env.info p).found with
      | false =>
        rw [stepImage_not_found env s0 p hd hf] at h
        have h2 : processImages env ps
            { objpoints := s0.objpoints
              imgpoints := s0.imgpoints
              trace := s0.trace ++ [Event.notFound p] } = RunOutcome.ok s1 := h
        obtain ⟨h1, h2', h3⟩ := ih _ _ h2
        refine ⟨?_, ?_, ?_⟩
        · rw [h1]
          simp [foundFilter, List.filter_cons, hd, hf]
        · rw [h2']
          simp [foundFilter, List.filter_cons, hd, hf]
        · rw [h3, traceOf]
          simp [hd, hf]
      | true =>
        rw [stepImage_found env s0 p hd hf] at h
        have h2 : processImages env ps
            { objpoints := s0.objpoints ++ [objp]
              imgpoints := s0.imgpoints ++ [(env.info p).corners]
              trace := s0.trace ++
                [Event.subPix (11, 11) (-1, -1) criteria, Event.pushPair p] } =
            RunOutcome.ok s1 := h
        obtain ⟨h1, h2', h3⟩ := ih _ _ h2
        refine ⟨?_, ?_, ?_⟩
        · rw [h1]
          simp [foundFilter, List.filter_cons, hd, hf]
        · rw [h2']
          simp [foundFilter, List.filter_cons, hd, hf]
        · rw [h3, traceOf]
          simp [hd, hf]

/-- When every image of the list decodes, the loop completes without a
panic. -/
theorem processImages_all_decode (env : CalibEnv) (qs : List String) :
    ∀ s0, (∀ p ∈ qs, (env.info p).decode_ok = true) →
      ∃ s1, processImages env qs s0 = RunOutcome.ok s1 := by
  induction qs with
  | nil => exact fun s0 _ => ⟨s0, rfl⟩
  | cons p ps ih =>
    intro s0 hdec
    have hd : (env.info p).decode_ok = true := hdec p (List.mem_cons_self p ps)
    have hrest : ∀ q ∈ ps, (env.info q).decode_ok = true := fun q hq =>
      hdec q (List.mem_cons_of_mem p hq)
    cases hf : (env.info p).found with
    | false =>
      obtain ⟨s1, hs1⟩ :=
        ih { objpoints := s0.objpoints
             imgpoints := s0.imgpoints
             trace := s0.trace ++ [Event.notFound p] } hrest
      refine ⟨s1, ?_⟩
      rw [processImages, stepImage_not_found env s0 p hd hf]
      exact hs1
    | true =>
      obtain ⟨s1, hs1⟩ :=
        ih { objpoints := s0.objpoints ++ [objp]
             imgpoints := s0.imgpoints ++ [(env.info p).corners]
             trace := s0.trace ++
               [Event.subPix (11, 11) (-1, -1) criteria, Event.pushPair p] }
          hrest
      refine ⟨s1, ?_⟩
      rw [processImages, stepImage_found env s0 p hd hf]
      exact hs1

/-- A reported miss appears in the loop trace. -/
theorem notFound_mem_traceOf (env : CalibEnv) (qs : List String) (p : String)
    (hp : p ∈ qs) (hd : (env.info p).decode_ok = true)
    (hf : (env.info p).found = false) :
    Event.notFound p ∈ traceOf env qs := by
  induction qs with
  | nil => cases hp
  | cons q rest ih =>
    rcases List.mem_cons.mp hp with rfl | hmem
    · simp [traceOf, hd, hf]
    · rw [traceOf]
      exact List.mem_append_right _ (ih hmem)

/-- Every criteria-carrying event of the loop trace is the standard
corner-refinement event, and there is exactly one per pattern-found
image. -/
theorem traceOf_criteria (env : CalibEnv) (qs : List String) :
    (∀ e ∈ traceOf env qs, Event.criteriaOf e ≠ none →
      e = Event.subPix (11, 11) (-1, -1) criteria) ∧
    (traceOf env qs).countP (fun e => (Event.criteriaOf e).isSome) =
      (foundFilter env qs).length := by
  induction qs with
  | nil => simp [traceOf, foundFilter]
  | cons p ps ih =>
    obtain ⟨ih1, ih2⟩ := ih
    constructor
    · intro e he hne
      rw [traceOf] at he
      rcases List.mem_append.mp he with hb | ht
      · cases hd : (env.info p).decode_ok with
        | false =>
          rw [hd] at hb
          simp at hb
        | true =>
          rw [hd] at hb
          cases hf : (env.info p).found with
          | false =>
            rw [hf] at hb
            simp at hb
            subst hb
            simp [Event.criteriaOf] at hne
          | true =>
            rw [hf] at hb
            simp at hb
            rcases hb with rfl | rfl
            · rfl
            · simp [Event.criteriaOf] at hne
      · exact ih1 e ht hne
    · rw [traceOf, List.countP_append, ih2]
      cases hd : (env.info p).decode_ok with
      | false =>
        simp [foundFilter, List.filter_cons, hd]
      | true =>
        cases hf : (env.info p).found with
        | false =>
          simp [foundFilter, List.filter_cons, hd, hf, List.countP_cons,
            Event.criteriaOf]
        | true =>
          simp [foundFilter, List.filter_cons, hd, hf, List.countP_cons,
            Event.criteriaOf]
          omega

/-- Reading back a list of encoded numbers. -/
theorem numsOf_map_num (l : List Rat) : numsOf (l.map Json.num) = some l := by
  induction l with
  | nil => rfl
  | cons q qs ih => simp [numsOf, ih]

/-- Lookup of the first field of the encoded record. -/
theorem lookupField_cm (a b : Json) :
    lookupField "camera_matrix"
      [("camera_matrix", a), ("dist_coeffs", b)] = some a := rfl

/-- Lookup of the second field of the encoded record. -/
theorem lookupField_dc (a b : Json) :
    lookupField "dist_coeffs"
      [("camera_matrix", a), ("dist_coeffs", b)] = some b := rfl

/-! ### First theorems: the grid specification -/

/-- C1: the canonical object-point sequence has width_dim * height_dim = 88
entries and its i-th entry is (i mod width_dim, i div height_dim, 0) with
integer division, exactly as built at main.rs lines 72-79. -/
theorem c1_grid_points :
    objp.length = width_dim * height_dim ∧
    width_dim * height_dim = 88 ∧
    ∀ i : Fin 88, objp.get? i.val =
      some (i.val % width_dim, i.val / height_dim, 0) := by
  refine ⟨by decide, by decide, ?_⟩
  decide

/-! ### C2: empty correspondence set -/

/-- C2, counterexample: with a calibration directory holding no jpg entry,
the run accumulates zero correspondences and then panics at the unwrap of
the first-image lookup (main.rs line 133) instead of failing with an
explicit insufficient-data condition. -/
theorem c2_zero_correspondence_crash :
    processImages envC2 (filteredPaths envC2.entries) initAcc =
      RunOutcome.ok initAcc ∧
    calibrateRun envC2 = RunOutcome.panic "called unwrap on a None value" :=
  ⟨rfl, rfl⟩

/-- C2, amended: a calibrate run that accumulates zero correspondences never
persists a calibration record — the run ends in a panic (no jpg entry to
look up) or in the error the solver itself raises on empty input, never in
the success outcome that carries the written record. -/
theorem c2_empty_run_never_persists (env : CalibEnv)
    (hsolve : ∀ sz : Int × Int, ∃ m, env.solve [] [] sz = Except.error m)
    (hempty : ∀ s, processImages env (filteredPaths env.entries) initAcc =
      RunOutcome.ok s → s.objpoints = [] ∧ s.imgpoints = []) :
    (calibrateRun env).isOkB = false := by
  unfold calibrateRun
  cases hp : processImages env (filteredPaths env.entries) initAcc with
  | panic m => rfl
  | err m => rfl
  | ok s =>
    obtain ⟨ho, hi⟩ := hempty s hp
    show (afterLoop env s).isOkB = false
    unfold afterLoop
    cases hh : (filteredPaths env.entries).head? with
    | none => rfl
    | some first =>
      show (solveStage env s first).isOkB = false
      unfold solveStage
      obtain ⟨m, hm⟩ := hsolve (env.size first)
      rw [ho, hi, hm]
      rfl

/-- Witness for the amended C2 theorem at a concrete environment. -/
theorem c2_empty_run_never_persists_witness :
    (calibrateRun envC2w).isOkB = false :=
  c2_empty_run_never_persists envC2w
    (fun _ => ⟨"insufficient calibration data", rfl⟩)
    (fun s h => by
      have h0 : processImages envC2w (filteredPaths envC2w.entries) initAcc =
          RunOutcome.ok initAcc := rfl
      rw [h0] at h
      injection h with h2
      subst h2
      exact ⟨rfl, rfl⟩)

/-! ### C3: undistortion strategies -/

/-- C3, counterexample: on a concrete correct run the event sequence holds
exactly one direct undistortion and no remap-based undistortion at all, so
the claimed second strategy is never exercised and no two-strategy
equivalence holds of the code (the remap code is only a comment, main.rs
lines 221-239). -/
theorem c3_no_remap_strategy :
    (correctRun "out" [DirEntry.ok "imgs/a.jpg"]).countP CEvent.isRemap = 0 ∧
    (correctRun "out" [DirEntry.ok "imgs/a.jpg"]).countP CEvent.isDirect = 1 ∧
    correctRun "out" [DirEntry.ok "imgs/a.jpg"] =
      [CEvent.undistortDirect "imgs/a.jpg", CEvent.writeFile "out/u_a.jpg"] :=
  ⟨rfl, rfl, rfl⟩

/-- C3, amended: the Undistorter implements only the direct strategy — every
correct run performs exactly one direct undistortion per jpg entry and never
a remap-based one. -/
theorem c3_direct_only_strategy (output_dir : String)
    (entries : List DirEntry) :
    (correctRun output_dir entries).countP CEvent.isRemap = 0 ∧
    (correctRun output_dir entries).countP CEvent.isDirect =
      (filteredPaths entries).length := by
  rw [correctRun]
  generalize filteredPaths entries = l
  induction l with
  | nil => exact ⟨rfl, rfl⟩
  | cons p ps ih =>
    obtain ⟨ih1, ih2⟩ := ih
    constructor
    · simp [correctRunPaths, correctStep, List.countP_append,
        List.countP_cons, CEvent.isRemap, ih1]
    · simp [correctRunPaths, correctStep, List.countP_append,
        List.countP_cons, CEvent.isDirect, ih2]

/-! ### C4: the persisted record -/

/-- C4: when the loop, the first-image lookup and the solver succeed, the
persisted record carries the row-major flattening of the rectifier output
(nine numbers for a three-by-three optimal matrix), not the raw solver
matrix, together with the flattened solver distortion row (five numbers for
a one-by-five row), and the encoded record lists camera_matrix before
dist_coeffs. -/
theorem c4_persisted_record (env : CalibEnv) (s1 : AccState) (first : String)
    (mtx dist : Mat2)
    (hp : processImages env (filteredPaths env.entries) initAcc =
      RunOutcome.ok s1)
    (hfirst : (filteredPaths env.entries).head? = some first)
    (hsolve : env.solve s1.objpoints s1.imgpoints (env.size first) =
      Except.ok (mtx, dist))
    (hshape : (env.optimal mtx dist (env.size first)).length = 3 ∧
      ∀ r ∈ env.optimal mtx dist (env.size first), r.length = 3)
    (hdist : dist.length = 1 ∧ ∀ r ∈ dist, r.length = 5) :
    calibrateRun env = RunOutcome.ok
      { record :=
          { camera_matrix := flattenMat (env.optimal mtx dist (env.size first))
            dist_coeffs := flattenMat dist }
        fileContents := encodeCalibration
          { camera_matrix := flattenMat (env.optimal mtx dist (env.size first))
            dist_coeffs := flattenMat dist }
        trace := s1.trace } ∧
    (flattenMat (env.optimal mtx dist (env.size first))).length = 9 ∧
    (flattenMat dist).length = 5 ∧
    jsonFieldNames (encodeCalibration
      { camera_matrix := flattenMat (env.optimal mtx dist (env.size first))
        dist_coeffs := flattenMat dist }) =
      ["camera_matrix", "dist_coeffs"] := by
  refine ⟨?_, ?_, ?_, rfl⟩
  · unfold calibrateRun
    rw [hp]
    show afterLoop env s1 = _
    unfold afterLoop
    rw [hfirst]
    show solveStage env s1 first = _
    unfold solveStage
    rw [hsolve]
  · have hl := flattenMat_length (env.optimal mtx dist (env.size first)) 3
      hshape.2
    rw [hl, hshape.1]
  · have hl := flattenMat_length dist 5 hdist.2
    rw [hl, hdist.1]

/-- Witness for C4 at a concrete environment whose rectifier output differs
from the solver matrix. -/
theorem c4_persisted_record_witness :
    calibrateRun envC4 = RunOutcome.ok
      { record :=
          { camera_matrix :=
              flattenMat (envC4.optimal mtxC4 distC4 (envC4.size "cal/a.jpg"))
            dist_coeffs := flattenMat distC4 }
        fileContents := encodeCalibration
          { camera_matrix :=
              flattenMat (envC4.optimal mtxC4 distC4 (envC4.size "cal/a.jpg"))
            dist_coeffs := flattenMat distC4 }
        trace := c4acc.trace } ∧
    (flattenMat (envC4.optimal mtxC4 distC4 (envC4.size "cal/a.jpg"))).length
      = 9 ∧
    (flattenMat distC4).length = 5 ∧
    jsonFieldNames (encodeCalibration
      { camera_matrix :=
          flattenMat (envC4.optimal mtxC4 distC4 (envC4.size "cal/a.jpg"))
        dist_coeffs := flattenMat distC4 }) =
      ["camera_matrix", "dist_coeffs"] :=
  c4_persisted_record envC4 c4acc "cal/a.jpg" mtxC4 distC4 rfl rfl rfl
    (by decide) (by decide)

/-! ### C5: per-image error handling -/

/-- C5, counterexample: with two jpg entries where the first image fails to
decode, the loop panics at the unwrap (main.rs lines 93-95) and never
reaches the second image — a decode failure is not a recoverable, skipped
condition. -/
theorem c5_decode_failure_aborts :
    filteredPaths envC5.entries = ["cal/a.jpg", "cal/b.jpg"] ∧
    processImages envC5 (filteredPaths envC5.entries) initAcc =
      RunOutcome.panic "called unwrap on an Err value" :=
  ⟨rfl, rfl⟩

/-- C5, amended: pattern-not-found is per-image recoverable — when every
image decodes, the batch completes, every missed image is reported in the
trace, contributes nothing to either sequence, and only pattern-found
images append pairs. -/
theorem c5_not_found_recoverable (env : CalibEnv) (qs : List String)
    (s0 : AccState) (hdec : ∀ p ∈ qs, (env.info p).decode_ok = true) :
    ∃ s1, processImages env qs s0 = RunOutcome.ok s1 ∧
      (∀ p ∈ qs, (env.info p).found = false →
        Event.notFound p ∈ s1.trace) ∧
      s1.objpoints = s0.objpoints ++
        (foundFilter env qs).map (fun _ => objp) ∧
      s1.imgpoints = s0.imgpoints ++
        (foundFilter env qs).map (fun p => (env.info p).corners) ∧
      ∀ p ∈ qs, (env.info p).found = false → p ∉ foundFilter env qs := by
  obtain ⟨s1, h⟩ := processImages_all_decode env qs s0 hdec
  obtain ⟨h1, h2, h3⟩ := processImages_ok_eq env qs s0 s1 h
  refine ⟨s1, h, ?_, h1, h2, ?_⟩
  · intro p hp hf
    rw [h3]
    exact List.mem_append_right _
      (notFound_mem_traceOf env qs p hp (hdec p hp) hf)
  · intro p hp hf hmem
    rw [foundFilter, List.mem_filter] at hmem
    simp [hf] at hmem

/-- Witness for the amended C5 theorem at a concrete environment with one
decodable image whose pattern is missed. -/
theorem c5_not_found_recoverable_witness :
    ∃ s1, processImages envC5w ["cal/n.jpg"] initAcc = RunOutcome.ok s1 ∧
      (∀ p ∈ ["cal/n.jpg"], (envC5w.info p).found = false →
        Event.notFound p ∈ s1.trace) ∧
      s1.objpoints = initAcc.objpoints ++
        (foundFilter envC5w ["cal/n.jpg"]).map (fun _ => objp) ∧
      s1.imgpoints = initAcc.imgpoints ++
        (foundFilter envC5w ["cal/n.jpg"]).map
          (fun p => (envC5w.info p).corners) ∧
      ∀ p ∈ ["cal/n.jpg"], (envC5w.info p).found = false →
        p ∉ foundFilter envC5w ["cal/n.jpg"] :=
  c5_not_found_recoverable envC5w ["cal/n.jpg"] initAcc (by decide)

/-! ### C6: round-trip persistence -/

/-- C6: encoding a calibration record as the calibrate path does and
decoding it as the correct path does returns exactly the same numbers, so
in particular the round trip is within every nonnegative tolerance. -/
theorem c6_roundtrip_persistence (c : Calibration) :
    decodeCalibration (encodeCalibration c) = some c := by
  simp only [encodeCalibration, decodeCalibration, lookupField_cm,
    lookupField_dc, numsOf_map_num]

/-! ### C7: termination criteria -/

/-- C7: the criteria value stops at max_count 30 or epsilon 1/1000 with the
combined flag, every criteria-carrying event of a completed loop is the
corner-refinement call with an 11 by 11 window and a (-1,-1) zero zone
carrying exactly this value, and such a call happens once per pattern-found
image and nowhere else. -/
theorem c7_criteria_usage (env : CalibEnv) (qs : List String) (s1 : AccState)
    (hok : processImages env qs initAcc = RunOutcome.ok s1) :
    criteria.max_count = 30 ∧ criteria.epsilon = 1 / 1000 ∧
    criteria.typ = TermCriteria_EPS + TermCriteria_MAX_ITER ∧
    (∀ e ∈ s1.trace, Event.criteriaOf e ≠ none →
      e = Event.subPix (11, 11) (-1, -1) criteria) ∧
    s1.trace.countP (fun e => (Event.criteriaOf e).isSome) =
      (foundFilter env qs).length := by
  obtain ⟨-, -, h3⟩ := processImages_ok_eq env qs initAcc s1 hok
  obtain ⟨t1, t2⟩ := traceOf_criteria env qs
  refine ⟨rfl, rfl, rfl, ?_, ?_⟩
  · intro e he hne
    rw [h3] at he
    simp only [initAcc, List.nil_append] at he
    exact t1 e he hne
  · rw [h3]
    simp only [initAcc, List.nil_append]
    exact t2

/-- Witness for C7 at a concrete environment with one detected image. -/
theorem c7_criteria_usage_witness :
    criteria.max_count = 30 ∧ criteria.epsilon = 1 / 1000 ∧
    criteria.typ = TermCriteria_EPS + TermCriteria_MAX_ITER ∧
    (∀ e ∈ c7acc.trace, Event.criteriaOf e ≠ none →
      e = Event.subPix (11, 11) (-1, -1) criteria) ∧
    c7acc.trace.countP (fun e => (Event.criteriaOf e).isSome) =
      (foundFilter envC7 ["cal/a.jpg"]).length :=
  c7_criteria_usage envC7 ["cal/a.jpg"] c7acc rfl

/-! ### C8: accumulator invariants -/

/-- C8: a completed accumulation keeps the two sequences the same length,
every object-points entry is the one canonical grid, the grid has
width_dim times height_dim entries, every image-points entry has that same
length when the detector keeps its output-length contract, and the loop
only ever appends to the sequences. -/
theorem c8_accumulator_invariants (env : CalibEnv) (qs : List String)
    (s1 : AccState)
    (hok : processImages env qs initAcc = RunOutcome.ok s1)
    (hcorners : ∀ p ∈ qs, (env.info p).found = true →
      ((env.info p).corners).length = objp_len) :
    s1.objpoints.length = s1.imgpoints.length ∧
    (∀ o ∈ s1.objpoints, o = objp) ∧
    objp.length = objp_len ∧
    (∀ c ∈ s1.imgpoints, c.length = objp_len) ∧
    (∀ (t0 t1 : AccState) (rs : List String),
      processImages env rs t0 = RunOutcome.ok t1 →
      ∃ u v, t1.objpoints = t0.objpoints ++ u ∧
        t1.imgpoints = t0.imgpoints ++ v) := by
  obtain ⟨h1, h2, -⟩ := processImages_ok_eq env qs initAcc s1 hok
  refine ⟨?_, ?_, by decide, ?_, ?_⟩
  · rw [h1, h2]
    simp [initAcc]
  · intro o ho
    rw [h1] at ho
    simp only [initAcc, List.nil_append, List.mem_map] at ho
    obtain ⟨p, hp, he⟩ := ho
    exact he.symm
  · intro c hc
    rw [h2] at hc
    simp only [initAcc, List.nil_append, List.mem_map] at hc
    obtain ⟨p, hp, he⟩ := hc
    rw [foundFilter, List.mem_filter] at hp
    have hfound : (env.info p).found = true := by
      have hb := hp.2
      simp only [Bool.and_eq_true] at hb
      exact hb.2
    rw [← he]
    exact hcorners p hp.1 hfound
  · intro t0 t1 rs hr
    obtain ⟨g1, g2, -⟩ := processImages_ok_eq env rs t0 t1 hr
    exact ⟨_, _, g1, g2⟩

/-- Witness for C8 at a concrete environment whose detector returns the
full-grid corner sequence. -/
theorem c8_accumulator_invariants_witness :
    c8acc.objpoints.length = c8acc.imgpoints.length ∧
    (∀ o ∈ c8acc.objpoints, o = objp) ∧
    objp.length = objp_len ∧
    (∀ c ∈ c8acc.imgpoints, c.length = objp_len) ∧
    (∀ (t0 t1 : AccState) (rs : List String),
      processImages envC8 rs t0 = RunOutcome.ok t1 →
      ∃ u v, t1.objpoints = t0.objpoints ++ u ∧
        t1.imgpoints = t0.imgpoints ++ v) :=
  c8_accumulator_invariants envC8 ["cal/a.jpg"] c8acc rfl (by decide)

/-! ### C9: no mutation of source images -/

/-- C9: the detection block leaves the grayscale source as the unchanged
conversion of the unchanged input buffer, and the undistortion block leaves
the distorted source unchanged, writing the corrected result to the
separate destination mat — mirroring the immutable borrows of main.rs lines
93-112 and 208-219. -/
theorem c9_no_source_mutation (env : VisionEnv) (mtx dist : Mat2)
    (imgBuf : Buffer) :
    (detectBlock env imgBuf).img = imgBuf ∧
    (detectBlock env imgBuf).gray = env.cvtColor imgBuf ∧
    (undistortBlock env mtx dist imgBuf).img = imgBuf ∧
    (undistortBlock env mtx dist imgBuf).dst_undistort =
      env.undistortFn mtx dist imgBuf :=
  ⟨rfl, rfl, rfl, rfl⟩

/-! ### C10: the directory filter -/

/-- C10: a directory entry is processed exactly when it is readable and its
path extension compares equal to jpg; unreadable entries are dropped
silently; extensions jpeg and png and a missing extension never compare
equal to jpg. -/
theorem c10_jpg_extension_filter :
    (∀ (entries : List DirEntry) (p : String),
      p ∈ filteredPaths entries ↔
        DirEntry.ok p ∈ entries ∧ extensionOf p = some "jpg") ∧
    (∀ l1 l2 : List DirEntry,
      filteredPaths (l1 ++ DirEntry.err :: l2) = filteredPaths (l1 ++ l2)) ∧
    extensionOf "a.jpeg" = some "jpeg" ∧
    extensionOf "a.png" = some "png" ∧
    extensionOf "a" = none := by
  refine ⟨?_, ?_, rfl, rfl, rfl⟩
  · intro entries p
    simp only [filteredPaths, List.mem_filter, List.mem_filterMap,
      decide_eq_true_eq]
    constructor
    · rintro ⟨⟨a, ha, hpa⟩, hext⟩
      cases a with
      | ok q =>
        simp only [DirEntry.pathOf, Option.some.injEq] at hpa
        subst hpa
        exact ⟨ha, hext⟩
      | err => simp [DirEntry.pathOf] at hpa
    · rintro ⟨hmem, hext⟩
      exact ⟨⟨DirEntry.ok p, hmem, rfl⟩, hext⟩
  · intro l1 l2
    simp [filteredPaths, List.filterMap_append, List.filterMap_cons,
      DirEntry.pathOf]

end UndistortSpec
